import Mathlib

/-!
Shallow embedding of the credit-ledger / job-lifecycle core of the
contract-checker service (source: `task_1.py`, duplicated across
`app/models/wallet.py`, `app/models/user.py`, `app/models/mljob.py`,
`app/models/transaction.py`, `app/models/other.py`).

Modelling choices:
* Python `Decimal` amounts are embedded as `Rat` (exact arithmetic; every
  decimal is a rational, and the code only adds, subtracts and compares).
  `Decimal(str(amount))` is the identity on already-exact amounts.
* Mutation of `self` becomes explicit state passing: a method returning
  `T` on a mutable object of type `S` becomes a function `S → ... → T × S`,
  and a method that can raise becomes `S → ... → Except E (T × S)`.
* Wall-clock timestamps (`datetime.now` / `datetime.utcnow`) are embedded
  as an explicit `now : Nat` argument; `Transaction.trans_time`, which no
  operation reads, is omitted from the record.
* The `ref`/`note` string parameters follow `task_1.py`, where
  `Wallet.credit`/`Wallet.debit` accept them and ignore them (the
  `app/models/wallet.py` variant omits the parameter from the signature).
* Python `float` (`risk_score`) is embedded as `Rat`; the code only stores
  the score, never computes with it.
-/

/-- Types of a wallet movement (`TxType` in `models/other.py`). -/
inductive TxType where
  | CREDIT
  | DEBIT
deriving DecidableEq, BEq, Repr

/-- Status of a job (`JobStatus` in `models/other.py`). -/
inductive JobStatus where
  | QUEUED
  | RUNNING
  | DONE
  | ERROR
deriving DecidableEq, BEq, Repr

/-- Granularity of the produced summary (`SummaryDepth`). -/
inductive SummaryDepth where
  | BRIEF
  | BULLET
  | DETAILED
deriving DecidableEq, BEq, Repr

/-- Risk level of a contract clause (`RiskLevel`). -/
inductive RiskLevel where
  | LOW
  | MEDIUM
  | HIGH
deriving DecidableEq, BEq, Repr

/-- Account role (`Role`). -/
inductive Role where
  | USER
  | ADMIN
deriving DecidableEq, BEq, Repr

/-- One movement of funds in a wallet (`Transaction`); `trans_time` is not
read by any operation and is omitted. -/
structure Transaction where
  id : Nat
  user_id : Nat
  tx_type : TxType
  amount : Rat
deriving DecidableEq, Repr

/-- The error raised by `Wallet.debit` (`ValueError` carrying the message
`Insufficient balance: {balance} < {amount}`); the two interpolated values
are kept structurally. -/
inductive WalletError where
  | InsufficientFunds (balance : Rat) (amount : Rat)
deriving DecidableEq, Repr

/-- A user's wallet (`Wallet`): owner id, cached balance, transaction
history. -/
structure Wallet where
  user_id : Nat
  _balance : Rat
  transactions : List Transaction
deriving DecidableEq, Repr

/-- A freshly constructed wallet `Wallet(user_id=uid)`: the dataclass
defaults are `_balance = Decimal("0")` and `transactions = []`. -/
def Wallet.init (uid : Nat) : Wallet :=
  { user_id := uid, _balance := 0, transactions := [] }

/-- The read-only `balance` property. -/
def Wallet.balance (w : Wallet) : Rat :=
  w._balance

/-- `Wallet._add_tx`: append the transaction to the history and update the
cached balance according to the transaction type. -/
def Wallet._add_tx (w : Wallet) (tx : Transaction) : Wallet :=
  { w with
    transactions := w.transactions ++ [tx]
    _balance :=
      match tx.tx_type with
      | TxType.CREDIT => w._balance + tx.amount
      | TxType.DEBIT => w._balance - tx.amount }

/-- `Wallet.credit(amount, ref)`: build a CREDIT transaction with
`id = len(transactions) + 1` and record it; `ref` is accepted and ignored.
The call never fails. -/
def Wallet.credit (w : Wallet) (amount : Rat) (ref : String) : Transaction × Wallet :=
  let _ := ref
  let tx : Transaction :=
    { id := w.transactions.length + 1
      user_id := w.user_id
      tx_type := TxType.CREDIT
      amount := amount }
  (tx, w._add_tx tx)

/-- `Wallet.debit(amount, ref)`: raise when `_balance < amount`, otherwise
build a DEBIT transaction with `id = len(transactions) + 1` and record it;
`ref` is accepted and ignored. -/
def Wallet.debit (w : Wallet) (amount : Rat) (ref : String) :
    Except WalletError (Transaction × Wallet) :=
  let _ := ref
  if w._balance < amount then
    Except.error (WalletError.InsufficientFunds w._balance amount)
  else
    let tx : Transaction :=
      { id := w.transactions.length + 1
        user_id := w.user_id
        tx_type := TxType.DEBIT
        amount := amount }
    Except.ok (tx, w._add_tx tx)

/-- An account (`User`); email/password validation of `__post_init__` is a
construction-time concern not modelled here, and the wallet default is a
fresh `Wallet(user_id=id)`. -/
structure User where
  id : Nat
  username : String
  email : String
  password : String
  role : Role
  wallet : Wallet
deriving DecidableEq, Repr

/-- `User.credit(amount, ref)`: delegate to the owned wallet, return its
transaction, keep the updated wallet. -/
def User.credit (u : User) (amount : Rat) (ref : String) : Transaction × User :=
  let (tx, w) := u.wallet.credit amount ref
  (tx, { u with wallet := w })

/-- `User.debit(amount, ref)`: delegate to the owned wallet, surfacing its
error unchanged. -/
def User.debit (u : User) (amount : Rat) (ref : String) :
    Except WalletError (Transaction × User) :=
  match u.wallet.debit amount ref with
  | Except.error e => Except.error e
  | Except.ok (tx, w) => Except.ok (tx, { u with wallet := w })

/-- An uploaded contract (`Document`); `uploaded_at` is not read by any
operation and is omitted. -/
structure Document where
  id : Nat
  user_id : Nat
  filename : String
  raw_text : String
  pages : Int
  language : String
deriving DecidableEq, Repr

/-- Catalog metadata of an ML model (`Model`). -/
structure Model where
  name : String
  price_per_page : Int
  active : Bool
deriving DecidableEq, Repr

/-- A risky clause found in a contract (`RiskClause`). -/
structure RiskClause where
  clause_text : String
  risk_level : RiskLevel
  explanation : Option String
deriving DecidableEq, Repr

/-- A document-analysis job (`MLJob`). -/
structure MLJob where
  id : Nat
  document : Document
  model : Model
  status : JobStatus
  summary_depth : SummaryDepth
  used_credits : Rat
  summary_text : Option String
  risk_score : Option Rat
  risk_clauses : List RiskClause
  started_at : Option Nat
  finished_at : Option Nat
deriving DecidableEq, Repr

/-- `MLJob.start()`: set status to RUNNING and stamp `started_at`; the
source performs no check of the current status. -/
def MLJob.start (j : MLJob) (now : Nat) : MLJob :=
  { j with status := JobStatus.RUNNING, started_at := some now }

/-- `MLJob.finish_ok(summary, clauses, score)`: set status to DONE, attach
the results and stamp `finished_at`; no check of the current status. -/
def MLJob.finish_ok (j : MLJob) (summary : String) (clauses : List RiskClause)
    (score : Rat) (now : Nat) : MLJob :=
  { j with
    status := JobStatus.DONE
    summary_text := some summary
    risk_clauses := clauses
    risk_score := some score
    finished_at := some now }

/-- `MLJob.finish_error(msg)`: set status to ERROR, record the message and
stamp `finished_at`; no check of the current status. -/
def MLJob.finish_error (j : MLJob) (msg : String) (now : Nat) : MLJob :=
  { j with
    status := JobStatus.ERROR
    summary_text := some ("Error: " ++ msg)
    finished_at := some now }

/-- `MLJob.enqueue(user, document, model, depth)`: compute
`cost = pages * price_per_page`, debit the user (propagating a debit
failure), then build the job with the dataclass defaults
(`status = QUEUED`, optional fields absent) and `used_credits = cost`,
`id = 1` (placeholder in the source). -/
def MLJob.enqueue (user : User) (document : Document) (model : Model)
    (depth : SummaryDepth) : Except WalletError (MLJob × User) :=
  let cost : Rat := ((document.pages * model.price_per_page : Int) : Rat)
  match user.debit cost ("ML processing: " ++ document.filename) with
  | Except.error e => Except.error e
  | Except.ok (_, u2) =>
      Except.ok
        ({ id := 1
           document := document
           model := model
           status := JobStatus.QUEUED
           summary_depth := depth
           used_credits := cost
           summary_text := none
           risk_score := none
           risk_clauses := []
           started_at := none
           finished_at := none }, u2)

/-- One caller-visible wallet operation, as dispatched by the service:
either a `credit` or a `debit`, each carrying its amount and note. -/
inductive WalletOp where
  | credit (amount : Rat) (ref : String)
  | debit (amount : Rat) (ref : String)
deriving DecidableEq, Repr

/-- Apply one operation to a wallet. A failed `debit` raises in the source
before any mutation, so the wallet state after the call is unchanged. -/
def applyOp (w : Wallet) : WalletOp → Wallet
  | WalletOp.credit a r => (w.credit a r).2
  | WalletOp.debit a r =>
      match w.debit a r with
      | Except.ok (_, w2) => w2
      | Except.error _ => w

/-- Run a sequence of wallet operations left to right. -/
def runOps (w : Wallet) : List WalletOp → Wallet
  | [] => w
  | op :: ops => runOps (applyOp w op) ops

/-- The wallet reached from a freshly constructed wallet by a sequence of
credit/debit calls (successful or failed). -/
def walletAfter (uid : Nat) (ops : List WalletOp) : Wallet :=
  runOps (Wallet.init uid) ops

/-- Sum of the amounts of the CREDIT transactions of a history. -/
def creditSum (txs : List Transaction) : Rat :=
  ((txs.filter fun tx => tx.tx_type == TxType.CREDIT).map Transaction.amount).sum

/-- Sum of the amounts of the DEBIT transactions of a history. -/
def debitSum (txs : List Transaction) : Rat :=
  ((txs.filter fun tx => tx.tx_type == TxType.DEBIT).map Transaction.amount).sum

/-- The document of demo scenario C (`pages = 8`). -/
def doc0 : Document :=
  { id := 1
    user_id := 1
    filename := "contract_supply.pdf"
    raw_text := "some contract text"
    pages := 8
    language := "RU" }

/-- The model of demo scenario C (`price_per_page = 3`). -/
def model0 : Model :=
  { name := "Legal-Analyzer-RU", price_per_page := 3, active := true }

/-- A user whose wallet was topped up with 500 credits. -/
def u500 : User :=
  { id := 1
    username := "karpov"
    email := "karpov@jurist.ru"
    password := "password12312hash"
    role := Role.USER
    wallet := ((Wallet.init 1).credit 500 "initial_payment").2 }

/-- A wallet with balance 300, reached by a single credit. -/
def opsB : List WalletOp :=
  [WalletOp.credit 300 "topup"]

/-- Operation trace for the transaction-id witness: a failed debit sits
between two recorded operations. -/
def opsW : List WalletOp :=
  [WalletOp.credit 500 "topup", WalletOp.debit 600 "too_much", WalletOp.debit 200 "ok"]

/-- A job that already reached the terminal DONE state. -/
def jobDone : MLJob :=
  { id := 1
    document := doc0
    model := model0
    status := JobStatus.DONE
    summary_depth := SummaryDepth.BULLET
    used_credits := 24
    summary_text := some "all good"
    risk_score := some (7 / 10)
    risk_clauses := []
    started_at := some 5
    finished_at := some 6 }

@[simp] theorem txType_beq_credit_credit : (TxType.CREDIT == TxType.CREDIT) = true := rfl

@[simp] theorem txType_beq_debit_credit : (TxType.DEBIT == TxType.CREDIT) = false := rfl

@[simp] theorem txType_beq_credit_debit : (TxType.CREDIT == TxType.DEBIT) = false := rfl

@[simp] theorem txType_beq_debit_debit : (TxType.DEBIT == TxType.DEBIT) = true := rfl

theorem creditSum_append (l1 l2 : List Transaction) :
    creditSum (l1 ++ l2) = creditSum l1 + creditSum l2 := by
  simp [creditSum, List.filter_append]

theorem debitSum_append (l1 l2 : List Transaction) :
    debitSum (l1 ++ l2) = debitSum l1 + debitSum l2 := by
  simp [debitSum, List.filter_append]

theorem creditSum_singleton (tx : Transaction) :
    creditSum [tx] = if tx.tx_type == TxType.CREDIT then tx.amount else 0 := by
  cases h : tx.tx_type <;> simp [creditSum, h]

theorem debitSum_singleton (tx : Transaction) :
    debitSum [tx] = if tx.tx_type == TxType.DEBIT then tx.amount else 0 := by
  cases h : tx.tx_type <;> simp [debitSum, h]

theorem _add_tx_signed_sum (w : Wallet) (tx : Transaction)
    (h : w._balance = creditSum w.transactions - debitSum w.transactions) :
    (w._add_tx tx)._balance =
      creditSum (w._add_tx tx).transactions - debitSum (w._add_tx tx).transactions := by
  cases htx : tx.tx_type <;>
    simp [Wallet._add_tx, htx, creditSum_append, debitSum_append,
      creditSum_singleton, debitSum_singleton, h] <;>
    ring

theorem applyOp_signed_sum (w : Wallet) (op : WalletOp)
    (h : w._balance = creditSum w.transactions - debitSum w.transactions) :
    (applyOp w op)._balance =
      creditSum (applyOp w op).transactions - debitSum (applyOp w op).transactions := by
  cases op with
  | credit a r =>
      simpa [applyOp, Wallet.credit] using _add_tx_signed_sum w _ h
  | debit a r =>
      by_cases hb : w._balance < a
      · simpa [applyOp, Wallet.debit, hb] using h
      · simpa [applyOp, Wallet.debit, hb] using _add_tx_signed_sum w _ h

theorem runOps_signed_sum (ops : List WalletOp) (w : Wallet)
    (h : w._balance = creditSum w.transactions - debitSum w.transactions) :
    (runOps w ops)._balance =
      creditSum (runOps w ops).transactions - debitSum (runOps w ops).transactions := by
  induction ops generalizing w with
  | nil => simpa [runOps] using h
  | cons op ops ih => simpa [runOps] using ih _ (applyOp_signed_sum w op h)

/-- C4: for every wallet reachable from a fresh wallet by credit/debit
calls, the stored balance equals the sum of CREDIT amounts minus the sum
of DEBIT amounts over the wallet's transaction sequence. -/
theorem walletAfter_balance_eq_signed_sum (uid : Nat) (ops : List WalletOp) :
    (walletAfter uid ops).balance =
      creditSum (walletAfter uid ops).transactions -
        debitSum (walletAfter uid ops).transactions := by
  have h0 : (Wallet.init uid)._balance =
      creditSum (Wallet.init uid).transactions - debitSum (Wallet.init uid).transactions := by
    simp [Wallet.init, creditSum, debitSum]
  simpa [walletAfter, Wallet.balance] using runOps_signed_sum ops (Wallet.init uid) h0

theorem debit_error_unchanged (w : Wallet) (a : Rat) (r : String) (e : WalletError)
    (h : Wallet.debit w a r = Except.error e) :
    applyOp w (WalletOp.debit a r) = w := by
  simp [applyOp, h]

theorem applyOp_nonneg (w : Wallet) (op : WalletOp)
    (hw : 0 ≤ w._balance)
    (hop : ∀ a r, op = WalletOp.credit a r → 0 ≤ a) :
    0 ≤ (applyOp w op)._balance := by
  cases op with
  | credit a r =>
      have ha : 0 ≤ a := hop a r rfl
      simp [applyOp, Wallet.credit, Wallet._add_tx]
      linarith
  | debit a r =>
      by_cases hb : w._balance < a
      · simpa [applyOp, Wallet.debit, hb] using hw
      · simp [applyOp, Wallet.debit, hb, Wallet._add_tx]
        linarith [not_lt.mp hb]

theorem runOps_nonneg (ops : List WalletOp) (w : Wallet)
    (hw : 0 ≤ w._balance)
    (hops : ∀ a r, WalletOp.credit a r ∈ ops → 0 ≤ a) :
    0 ≤ (runOps w ops)._balance := by
  induction ops generalizing w with
  | nil => simpa [runOps] using hw
  | cons op ops ih =>
      have h1 : 0 ≤ (applyOp w op)._balance :=
        applyOp_nonneg w op hw (fun a r hop => hops a r (by simp [hop]))
      simpa [runOps] using ih _ h1 (fun a r hm => hops a r (by simp [hm]))

/-- C2 counterexample: the wallet reached from a fresh wallet by the single
call `credit(-1)` has a negative balance, so the balance is not nonnegative
at every observable point of every credit/debit sequence. -/
theorem balance_can_go_negative_cex :
    (walletAfter 1 [WalletOp.credit (-1) "gift"]).balance < 0 := by
  norm_num [walletAfter, runOps, applyOp, Wallet.init, Wallet.credit,
    Wallet._add_tx, Wallet.balance]

/-- C2 amended: the balance of a wallet reachable from a fresh wallet stays
nonnegative provided every credit in the sequence has a nonnegative amount
(the code does not validate credit amounts, and a negative credit drives the
balance negative); unconditionally, any debit attempt that would make the
balance negative is rejected with the insufficient-funds error and leaves
the wallet — hence its transaction sequence — unchanged. -/
theorem balance_nonneg_of_nonneg_credits (uid : Nat) (ops : List WalletOp)
    (hops : ∀ a r, WalletOp.credit a r ∈ ops → 0 ≤ a) :
    0 ≤ (walletAfter uid ops).balance ∧
    (∀ (w : Wallet) (a : Rat) (r : String), w.balance - a < 0 →
        Wallet.debit w a r = Except.error (WalletError.InsufficientFunds w.balance a) ∧
        applyOp w (WalletOp.debit a r) = w) := by
  constructor
  · simpa [walletAfter, Wallet.balance] using
      runOps_nonneg ops (Wallet.init uid) (by simp [Wallet.init]) hops
  · intro w a r hneg
    have hb : w._balance < a := by
      have := sub_neg.mp hneg
      simpa [Wallet.balance] using this
    have herr : Wallet.debit w a r =
        Except.error (WalletError.InsufficientFunds w.balance a) := by
      simp [Wallet.debit, hb, Wallet.balance]
    exact ⟨herr, debit_error_unchanged w a r _ herr⟩

/-- Witness for the amended C2 at a concrete trace: one credit of 300 keeps
the balance nonnegative, and a debit of 400 on the resulting wallet is
rejected and leaves the wallet unchanged. -/
theorem balance_nonneg_of_nonneg_credits_witness :
    0 ≤ (walletAfter 1 opsB).balance ∧
    Wallet.debit (walletAfter 1 opsB) 400 "payment" =
      Except.error (WalletError.InsufficientFunds (walletAfter 1 opsB).balance 400) ∧
    applyOp (walletAfter 1 opsB) (WalletOp.debit 400 "payment") = walletAfter 1 opsB := by
  have hops : ∀ a r, WalletOp.credit a r ∈ opsB → 0 ≤ a := by
    intro a r h
    simp [opsB] at h
    rw [h.1]
    norm_num
  have H := balance_nonneg_of_nonneg_credits 1 opsB hops
  have hneg : (walletAfter 1 opsB).balance - 400 < 0 := by
    norm_num [walletAfter, runOps, applyOp, opsB, Wallet.init, Wallet.credit,
      Wallet._add_tx, Wallet.balance]
  exact ⟨H.1, (H.2 _ 400 "payment" hneg).1, (H.2 _ 400 "payment" hneg).2⟩

theorem _add_tx_map_id (w : Wallet) (tx : Transaction)
    (h : w.transactions.map Transaction.id =
      (List.range w.transactions.length).map fun k => k + 1)
    (htx : tx.id = w.transactions.length + 1) :
    (w._add_tx tx).transactions.map Transaction.id =
      (List.range (w._add_tx tx).transactions.length).map fun k => k + 1 := by
  have hr : List.range (w.transactions.length + 1) =
      List.range w.transactions.length ++ [w.transactions.length] := by
    simpa using List.range_succ w.transactions.length
  simp [Wallet._add_tx, hr, h, htx]

theorem applyOp_map_id (w : Wallet) (op : WalletOp)
    (h : w.transactions.map Transaction.id =
      (List.range w.transactions.length).map fun k => k + 1) :
    (applyOp w op).transactions.map Transaction.id =
      (List.range (applyOp w op).transactions.length).map fun k => k + 1 := by
  cases op with
  | credit a r =>
      simpa [applyOp, Wallet.credit] using _add_tx_map_id w _ h rfl
  | debit a r =>
      by_cases hb : w._balance < a
      · simpa [applyOp, Wallet.debit, hb] using h
      · simpa [applyOp, Wallet.debit, hb] using _add_tx_map_id w _ h rfl

theorem runOps_map_id (ops : List WalletOp) (w : Wallet)
    (h : w.transactions.map Transaction.id =
      (List.range w.transactions.length).map fun k => k + 1) :
    (runOps w ops).transactions.map Transaction.id =
      (List.range (runOps w ops).transactions.length).map fun k => k + 1 := by
  induction ops generalizing w with
  | nil => simpa [runOps] using h
  | cons op ops ih => simpa [runOps] using ih _ (applyOp_map_id w op h)

theorem map_id_get (txs : List Transaction)
    (h : txs.map Transaction.id = (List.range txs.length).map fun k => k + 1)
    (i : Nat) (hi : i < txs.length) :
    (txs.get ⟨i, hi⟩).id = i + 1 := by
  have h2 := congrArg (fun l => l[i]?) h
  dsimp only at h2
  have hi1 : i < (txs.map Transaction.id).length := by simpa using hi
  have hi2 : i < ((List.range txs.length).map fun k => k + 1).length := by simpa using hi
  have hi3 : i < (List.range txs.length).length := by simpa using hi
  rw [List.getElem?_eq_getElem hi1, List.getElem?_eq_getElem hi2] at h2
  simp only [List.getElem_map, List.getElem_range, Option.some.injEq] at h2
  simpa [List.get_eq_getElem] using h2

/-- C9: within a wallet reachable from a fresh wallet, the transaction at
sequence position `i` has id `i + 1` (so ids are unique and strictly
increasing), and after a failed debit the next credit receives exactly the
id it would have received had the failed attempt not happened. -/
theorem tx_ids_sequential (uid : Nat) (ops : List WalletOp) :
    (∀ (i : Nat) (hi : i < (walletAfter uid ops).transactions.length),
        ((walletAfter uid ops).transactions.get ⟨i, hi⟩).id = i + 1) ∧
    (∀ (i j : Nat) (hi : i < (walletAfter uid ops).transactions.length)
        (hj : j < (walletAfter uid ops).transactions.length), i < j →
        ((walletAfter uid ops).transactions.get ⟨i, hi⟩).id <
          ((walletAfter uid ops).transactions.get ⟨j, hj⟩).id) ∧
    (∀ (a : Rat) (r : String) (e : WalletError),
        Wallet.debit (walletAfter uid ops) a r = Except.error e →
        ∀ (a2 : Rat) (r2 : String),
          ((applyOp (walletAfter uid ops) (WalletOp.debit a r)).credit a2 r2).1.id =
            ((walletAfter uid ops).credit a2 r2).1.id) := by
  have hmap : (walletAfter uid ops).transactions.map Transaction.id =
      (List.range (walletAfter uid ops).transactions.length).map fun k => k + 1 := by
    simpa [walletAfter] using runOps_map_id ops (Wallet.init uid) (by simp [Wallet.init])
  refine ⟨fun i hi => map_id_get _ hmap i hi, fun i j hi hj hij => ?_, fun a r e he a2 r2 => ?_⟩
  · rw [map_id_get _ hmap i hi, map_id_get _ hmap j hj]
    omega
  · rw [debit_error_unchanged _ a r e he]

/-- Witness for C9: on the concrete trace `opsW` (credit 500, failed debit
of 600, successful debit of 200) a further failed debit does not disturb
the id the next credit receives. -/
theorem tx_ids_sequential_witness :
    ((applyOp (walletAfter 1 opsW) (WalletOp.debit 600 "too_much")).credit 50 "next").1.id =
      ((walletAfter 1 opsW).credit 50 "next").1.id := by
  refine (tx_ids_sequential 1 opsW).2.2 600 "too_much"
    (WalletError.InsufficientFunds (walletAfter 1 opsW).balance 600) ?_ 50 "next"
  norm_num [walletAfter, runOps, applyOp, opsW, Wallet.init, Wallet.credit,
    Wallet.debit, Wallet._add_tx, Wallet.balance]

/-- C5: `Wallet.debit(amount)` fails with the insufficient-funds error
(reporting the current balance and the requested amount) when
`balance < amount`, leaving the wallet unchanged; otherwise it appends
exactly one DEBIT transaction of that amount and decreases the balance by
exactly the amount. -/
theorem debit_behaviour (w : Wallet) (a : Rat) (r : String) :
    (w.balance < a →
        Wallet.debit w a r = Except.error (WalletError.InsufficientFunds w.balance a) ∧
        applyOp w (WalletOp.debit a r) = w) ∧
    (¬ w.balance < a →
        Wallet.debit w a r =
          Except.ok
            ({ id := w.transactions.length + 1, user_id := w.user_id,
               tx_type := TxType.DEBIT, amount := a },
              { user_id := w.user_id, _balance := w.balance - a,
                transactions := w.transactions ++
                  [{ id := w.transactions.length + 1, user_id := w.user_id,
                     tx_type := TxType.DEBIT, amount := a }] })) := by
  constructor
  · intro hb
    have hb2 : w._balance < a := by simpa [Wallet.balance] using hb
    have herr : Wallet.debit w a r =
        Except.error (WalletError.InsufficientFunds w.balance a) := by
      simp [Wallet.debit, hb2, Wallet.balance]
    exact ⟨herr, debit_error_unchanged w a r _ herr⟩
  · intro hb
    have hb2 : ¬ w._balance < a := by simpa [Wallet.balance] using hb
    simp [Wallet.debit, hb2, Wallet._add_tx, Wallet.balance]

/-- Witness for C5 at scenario B: a wallet with balance 300 rejects
`debit(400)` with the insufficient-funds error, stays unchanged, and its
balance is 300. -/
theorem debit_behaviour_witness :
    Wallet.debit (walletAfter 1 opsB) 400 "payment2" =
      Except.error (WalletError.InsufficientFunds (walletAfter 1 opsB).balance 400) ∧
    applyOp (walletAfter 1 opsB) (WalletOp.debit 400 "payment2") = walletAfter 1 opsB ∧
    (walletAfter 1 opsB).balance = 300 := by
  have hlt : (walletAfter 1 opsB).balance < 400 := by
    norm_num [walletAfter, runOps, applyOp, opsB, Wallet.init, Wallet.credit,
      Wallet._add_tx, Wallet.balance]
  have H := (debit_behaviour (walletAfter 1 opsB) 400 "payment2").1 hlt
  refine ⟨H.1, H.2, ?_⟩
  norm_num [walletAfter, runOps, applyOp, opsB, Wallet.init, Wallet.credit,
    Wallet._add_tx, Wallet.balance]

/-- C6 counterexample: `credit(-1)` on a fresh wallet is not rejected —
a transaction is appended and the balance changes, so non-positive amounts
are not rejected before mutation. -/
theorem no_invalid_amount_cex :
    ((Wallet.init 1).credit (-1) "gift").2.transactions.length = 1 ∧
    ((Wallet.init 1).credit (-1) "gift").2.balance ≠ (Wallet.init 1).balance := by
  constructor
  · simp [Wallet.init, Wallet.credit, Wallet._add_tx]
  · norm_num [Wallet.init, Wallet.credit, Wallet._add_tx, Wallet.balance]

/-- C6 amended: neither `credit` nor `debit` validates the sign of the
amount — there is no invalid-amount rejection. For any `amount ≤ 0`,
`credit` appends a CREDIT transaction of that amount and moves the balance
by it, and `debit` on a wallet with nonnegative balance passes the
insufficient-funds guard and appends a DEBIT transaction of that amount. -/
theorem nonpositive_amounts_accepted (w : Wallet) (a : Rat) (r : String) (ha : a ≤ 0) :
    ((w.credit a r).2.transactions = w.transactions ++ [(w.credit a r).1] ∧
      (w.credit a r).1.tx_type = TxType.CREDIT ∧
      (w.credit a r).1.amount = a ∧
      (w.credit a r).2.balance = w.balance + a) ∧
    (0 ≤ w.balance →
      Wallet.debit w a r =
        Except.ok
          ({ id := w.transactions.length + 1, user_id := w.user_id,
             tx_type := TxType.DEBIT, amount := a },
            { user_id := w.user_id, _balance := w.balance - a,
              transactions := w.transactions ++
                [{ id := w.transactions.length + 1, user_id := w.user_id,
                   tx_type := TxType.DEBIT, amount := a }] })) := by
  constructor
  · simp [Wallet.credit, Wallet._add_tx, Wallet.balance]
  · intro hw
    have hb2 : ¬ w._balance < a := by
      have hw2 : 0 ≤ w._balance := by simpa [Wallet.balance] using hw
      linarith
    simp [Wallet.debit, hb2, Wallet._add_tx, Wallet.balance]

/-- Witness for the amended C6: on a fresh wallet, `credit(-5)` appends a
CREDIT transaction of amount -5 and `debit(-5)` succeeds. -/
theorem nonpositive_amounts_accepted_witness :
    ((Wallet.init 1).credit (-5) "neg").2.transactions =
      (Wallet.init 1).transactions ++ [((Wallet.init 1).credit (-5) "neg").1] ∧
    Wallet.debit (Wallet.init 1) (-5) "neg" =
      Except.ok
        ({ id := 1, user_id := 1, tx_type := TxType.DEBIT, amount := -5 },
          { user_id := 1, _balance := (5 : Rat),
            transactions :=
              [{ id := 1, user_id := 1, tx_type := TxType.DEBIT, amount := -5 }] }) := by
  have H := nonpositive_amounts_accepted (Wallet.init 1) (-5) "neg" (by norm_num)
  refine ⟨H.1.1, ?_⟩
  have H2 := H.2 (by norm_num [Wallet.init, Wallet.balance])
  simpa [Wallet.init, Wallet.balance] using H2

/-- C10: a strictly negative debit on a wallet with nonnegative balance is
not caught by the insufficient-balance guard: a DEBIT transaction carrying
the negative amount is appended and the balance increases by the absolute
value of the amount. -/
theorem debit_negative_amount (w : Wallet) (a : Rat) (r : String)
    (hw : 0 ≤ w.balance) (ha : a < 0) :
    Wallet.debit w a r =
      Except.ok
        ({ id := w.transactions.length + 1, user_id := w.user_id,
           tx_type := TxType.DEBIT, amount := a },
          { user_id := w.user_id, _balance := w.balance - a,
            transactions := w.transactions ++
              [{ id := w.transactions.length + 1, user_id := w.user_id,
                 tx_type := TxType.DEBIT, amount := a }] }) ∧
    w.balance - a = w.balance + |a| ∧
    w.balance < w.balance - a := by
  have hw2 : 0 ≤ w._balance := by simpa [Wallet.balance] using hw
  have hb2 : ¬ w._balance < a := by linarith
  refine ⟨?_, ?_, ?_⟩
  · simp [Wallet.debit, hb2, Wallet._add_tx, Wallet.balance]
  · rw [abs_of_neg ha]; ring
  · simp [Wallet.balance]; linarith

/-- Witness for C10: `debit(-5)` on a fresh wallet (balance 0) succeeds and
leaves balance 5. -/
theorem debit_negative_amount_witness :
    Wallet.debit (Wallet.init 2) (-5) "oops" =
      Except.ok
        ({ id := 1, user_id := 2, tx_type := TxType.DEBIT, amount := -5 },
          { user_id := 2, _balance := (5 : Rat),
            transactions :=
              [{ id := 1, user_id := 2, tx_type := TxType.DEBIT, amount := -5 }] }) ∧
    (Wallet.init 2).balance < (5 : Rat) := by
  have H := debit_negative_amount (Wallet.init 2) (-5) "oops"
    (by norm_num [Wallet.init, Wallet.balance]) (by norm_num)
  constructor
  · have := H.1
    simpa [Wallet.init, Wallet.balance] using this
  · norm_num [Wallet.init, Wallet.balance]

/-- C7: `User.credit` / `User.debit` delegate to the owned wallet, passing
the note through, and surface the wallet's returned transaction or error
unchanged; in particular, for every positive amount `credit` succeeds and
returns the appended CREDIT transaction. -/
theorem user_ops_delegate (u : User) (a : Rat) (r : String) :
    (User.credit u a r).1 = (u.wallet.credit a r).1 ∧
    (User.credit u a r).2 = { u with wallet := (u.wallet.credit a r).2 } ∧
    (∀ e, u.wallet.debit a r = Except.error e →
        User.debit u a r = Except.error e) ∧
    (∀ tx w2, u.wallet.debit a r = Except.ok (tx, w2) →
        User.debit u a r = Except.ok (tx, { u with wallet := w2 })) ∧
    (0 < a →
        (User.credit u a r).1.tx_type = TxType.CREDIT ∧
        (User.credit u a r).1.amount = a ∧
        (User.credit u a r).2.wallet.transactions =
          u.wallet.transactions ++ [(User.credit u a r).1]) := by
  refine ⟨rfl, rfl, fun e he => ?_, fun tx w2 hok => ?_, fun _ => ?_⟩
  · simp [User.debit, he]
  · simp [User.debit, hok]
  · simp [User.credit, Wallet.credit, Wallet._add_tx]

/-- Witness for C7: a positive credit of 200 on a concrete user appends the
returned CREDIT transaction to the owned wallet's history. -/
theorem user_ops_delegate_witness :
    (User.credit u500 200 "bonus").1.tx_type = TxType.CREDIT ∧
    (User.credit u500 200 "bonus").1.amount = 200 ∧
    (User.credit u500 200 "bonus").2.wallet.transactions =
      u500.wallet.transactions ++ [(User.credit u500 200 "bonus").1] :=
  (user_ops_delegate u500 200 "bonus").2.2.2.2 (by norm_num)

/-- C3 counterexample: on an already-terminal (DONE) job, `start` does not
fail — it moves the status back to RUNNING — and a second `finish_ok`
overwrites the already-set terminal fields. -/
theorem job_lifecycle_unguarded_cex :
    jobDone.status = JobStatus.DONE ∧
    (jobDone.start 7).status = JobStatus.RUNNING ∧
    (jobDone.start 7).started_at = some 7 ∧
    (jobDone.finish_ok "second run" [] (1 / 2)
        8).summary_text = some "second run" ∧
    jobDone.summary_text = some "all good" := by
  refine ⟨rfl, rfl, rfl, rfl, rfl⟩

/-- C3 amended: the lifecycle methods perform no status check — `start`,
`finish_ok` and `finish_error` succeed from every state (including terminal
states), unconditionally setting their target status, stamping their
timestamp and writing their result fields, and leaving every other field
unchanged; no invalid-transition error exists in the code. -/
theorem job_transitions_unconditional (j : MLJob) (now : Nat) (s : String)
    (cs : List RiskClause) (sc : Rat) (msg : String) :
    ((j.start now).status = JobStatus.RUNNING ∧
      (j.start now).started_at = some now ∧
      (j.start now).finished_at = j.finished_at ∧
      (j.start now).summary_text = j.summary_text ∧
      (j.start now).risk_score = j.risk_score ∧
      (j.start now).risk_clauses = j.risk_clauses ∧
      (j.start now).used_credits = j.used_credits ∧
      (j.start now).id = j.id ∧
      (j.start now).document = j.document ∧
      (j.start now).model = j.model ∧
      (j.start now).summary_depth = j.summary_depth) ∧
    ((j.finish_ok s cs sc now).status = JobStatus.DONE ∧
      (j.finish_ok s cs sc now).summary_text = some s ∧
      (j.finish_ok s cs sc now).risk_clauses = cs ∧
      (j.finish_ok s cs sc now).risk_score = some sc ∧
      (j.finish_ok s cs sc now).finished_at = some now ∧
      (j.finish_ok s cs sc now).started_at = j.started_at ∧
      (j.finish_ok s cs sc now).used_credits = j.used_credits ∧
      (j.finish_ok s cs sc now).id = j.id ∧
      (j.finish_ok s cs sc now).document = j.document ∧
      (j.finish_ok s cs sc now).model = j.model ∧
      (j.finish_ok s cs sc now).summary_depth = j.summary_depth) ∧
    ((j.finish_error msg now).status = JobStatus.ERROR ∧
      (j.finish_error msg now).summary_text = some ("Error: " ++ msg) ∧
      (j.finish_error msg now).finished_at = some now ∧
      (j.finish_error msg now).started_at = j.started_at ∧
      (j.finish_error msg now).risk_score = j.risk_score ∧
      (j.finish_error msg now).risk_clauses = j.risk_clauses ∧
      (j.finish_error msg now).used_credits = j.used_credits ∧
      (j.finish_error msg now).id = j.id ∧
      (j.finish_error msg now).document = j.document ∧
      (j.finish_error msg now).model = j.model ∧
      (j.finish_error msg now).summary_depth = j.summary_depth) := by
  refine ⟨⟨rfl, rfl, rfl, rfl, rfl, rfl, rfl, rfl, rfl, rfl, rfl⟩,
    ⟨rfl, rfl, rfl, rfl, rfl, rfl, rfl, rfl, rfl, rfl, rfl⟩,
    ⟨rfl, rfl, rfl, rfl, rfl, rfl, rfl, rfl, rfl, rfl, rfl⟩⟩

theorem debit_lt (w : Wallet) (a : Rat) (r : String) (h : w._balance < a) :
    Wallet.debit w a r = Except.error (WalletError.InsufficientFunds w._balance a) := by
  simp [Wallet.debit, h]

theorem debit_ge (w : Wallet) (a : Rat) (r : String) (h : ¬ w._balance < a) :
    Wallet.debit w a r =
      Except.ok
        ({ id := w.transactions.length + 1, user_id := w.user_id,
           tx_type := TxType.DEBIT, amount := a },
          w._add_tx ({ id := w.transactions.length + 1,
                       user_id := w.user_id,
                       tx_type := TxType.DEBIT,
                       amount := a })) := by
  simp [Wallet.debit, h]

theorem enqueue_unfold (u : User) (d : Document) (m : Model) (depth : SummaryDepth) :
    MLJob.enqueue u d m depth =
      match Wallet.debit u.wallet ((d.pages * m.price_per_page : Int) : Rat)
          ("ML processing: " ++ d.filename) with
      | Except.error e => Except.error e
      | Except.ok (_, w2) =>
          Except.ok
            ({ id := 1, document := d, model := m, status := JobStatus.QUEUED,
               summary_depth := depth,
               used_credits := ((d.pages * m.price_per_page : Int) : Rat),
               summary_text := none, risk_score := none, risk_clauses := [],
               started_at := none, finished_at := none },
              { u with wallet := w2 }) := by
  rcases hd : Wallet.debit u.wallet ((d.pages * m.price_per_page : Int) : Rat)
      ("ML processing: " ++ d.filename) with e | ⟨tx, w2⟩ <;>
    simp only [MLJob.enqueue, User.debit, hd]

theorem enqueue_debit_error (u : User) (d : Document) (m : Model)
    (depth : SummaryDepth) (e : WalletError)
    (h : Wallet.debit u.wallet ((d.pages * m.price_per_page : Int) : Rat)
        ("ML processing: " ++ d.filename) = Except.error e) :
    MLJob.enqueue u d m depth = Except.error e := by
  rw [enqueue_unfold, h]

theorem enqueue_debit_ok (u : User) (d : Document) (m : Model)
    (depth : SummaryDepth) (tx : Transaction) (w2 : Wallet)
    (h : Wallet.debit u.wallet ((d.pages * m.price_per_page : Int) : Rat)
        ("ML processing: " ++ d.filename) = Except.ok (tx, w2)) :
    MLJob.enqueue u d m depth =
      Except.ok
        ({ id := 1, document := d, model := m, status := JobStatus.QUEUED,
           summary_depth := depth,
           used_credits := ((d.pages * m.price_per_page : Int) : Rat),
           summary_text := none, risk_score := none, risk_clauses := [],
           started_at := none, finished_at := none },
          { u with wallet := w2 }) := by
  rw [enqueue_unfold, h]

/-- C1: `enqueue` is atomic with respect to the charge — either it returns
exactly one new job and the wallet's history is extended by exactly one
DEBIT transaction of the computed cost, or the wallet balance is below the
cost, `enqueue` fails with exactly the insufficient-funds error the debit
raises, and (the failing call producing no new state) the wallet's
transaction sequence and balance are unchanged. -/
theorem enqueue_charge_atomic (u : User) (d : Document) (m : Model)
    (depth : SummaryDepth) :
    (¬ u.wallet.balance < ((d.pages * m.price_per_page : Int) : Rat) ∧
      ∃ job u2 tx, MLJob.enqueue u d m depth = Except.ok (job, u2) ∧
        tx.tx_type = TxType.DEBIT ∧
        tx.amount = ((d.pages * m.price_per_page : Int) : Rat) ∧
        u2.wallet.transactions = u.wallet.transactions ++ [tx]) ∨
    (u.wallet.balance < ((d.pages * m.price_per_page : Int) : Rat) ∧
      MLJob.enqueue u d m depth =
        Except.error (WalletError.InsufficientFunds u.wallet.balance
          ((d.pages * m.price_per_page : Int) : Rat)) ∧
      Wallet.debit u.wallet ((d.pages * m.price_per_page : Int) : Rat)
          ("ML processing: " ++ d.filename) =
        Except.error (WalletError.InsufficientFunds u.wallet.balance
          ((d.pages * m.price_per_page : Int) : Rat))) := by
  by_cases hb : u.wallet._balance < ((d.pages * m.price_per_page : Int) : Rat)
  · have herr := debit_lt u.wallet ((d.pages * m.price_per_page : Int) : Rat)
      ("ML processing: " ++ d.filename) hb
    exact Or.inr ⟨hb, enqueue_debit_error u d m depth _ herr, herr⟩
  · have hok := debit_ge u.wallet ((d.pages * m.price_per_page : Int) : Rat)
      ("ML processing: " ++ d.filename) hb
    exact Or.inl ⟨hb, _, _,
      { id := u.wallet.transactions.length + 1, user_id := u.wallet.user_id,
        tx_type := TxType.DEBIT,
        amount := ((d.pages * m.price_per_page : Int) : Rat) },
      enqueue_debit_ok u d m depth _ _ hok, rfl, rfl, by simp [Wallet._add_tx]⟩

/-- C8: when the wallet balance covers `cost = pages * price_per_page`
(exact integer arithmetic, no rounding), `enqueue` debits exactly the cost
and returns a QUEUED job with `used_credits = cost` and absent
`started_at`/`finished_at`. -/
theorem enqueue_success (u : User) (d : Document) (m : Model)
    (depth : SummaryDepth)
    (h : ((d.pages * m.price_per_page : Int) : Rat) ≤ u.wallet.balance) :
    ∃ job u2, MLJob.enqueue u d m depth = Except.ok (job, u2) ∧
      job.status = JobStatus.QUEUED ∧
      job.used_credits = ((d.pages * m.price_per_page : Int) : Rat) ∧
      job.started_at = none ∧
      job.finished_at = none ∧
      u2.wallet.balance =
        u.wallet.balance - ((d.pages * m.price_per_page : Int) : Rat) ∧
      ∃ tx, tx.tx_type = TxType.DEBIT ∧
        tx.amount = ((d.pages * m.price_per_page : Int) : Rat) ∧
        u2.wallet.transactions = u.wallet.transactions ++ [tx] := by
  have hb : ¬ u.wallet._balance < ((d.pages * m.price_per_page : Int) : Rat) := by
    have h2 : ((d.pages * m.price_per_page : Int) : Rat) ≤ u.wallet._balance := h
    linarith
  have hok := debit_ge u.wallet ((d.pages * m.price_per_page : Int) : Rat)
    ("ML processing: " ++ d.filename) hb
  exact ⟨_, _, enqueue_debit_ok u d m depth _ _ hok, rfl, rfl, rfl, rfl,
    by simp [Wallet._add_tx, Wallet.balance],
    { id := u.wallet.transactions.length + 1, user_id := u.wallet.user_id,
      tx_type := TxType.DEBIT,
      amount := ((d.pages * m.price_per_page : Int) : Rat) },
    rfl, rfl, by simp [Wallet._add_tx]⟩

/-- Witness for C8 at scenario C: pages 8, price 3, balance 500 — the job
is QUEUED with `used_credits = 24` and the remaining balance is 476. -/
theorem enqueue_success_witness :
    (MLJob.enqueue u500 doc0 model0 SummaryDepth.BULLET).toOption.map
        (fun p => (p.1.status, p.1.used_credits, p.2.wallet.balance)) =
      some (JobStatus.QUEUED, (24 : Rat), (476 : Rat)) := by
  obtain ⟨job, u2, heq, hst, huc, hsa, hfa, hbal, tx, httype, hamt, htxs⟩ :=
    enqueue_success u500 doc0 model0 SummaryDepth.BULLET
      (by norm_num [u500, doc0, model0, Wallet.init, Wallet.credit,
        Wallet._add_tx, Wallet.balance])
  have hb500 : u500.wallet.balance = (500 : Rat) := by
    norm_num [u500, Wallet.init, Wallet.credit, Wallet._add_tx, Wallet.balance]
  have hcost : ((doc0.pages * model0.price_per_page : Int) : Rat) = 24 := by
    norm_num [doc0, model0]
  rw [heq]
  simp [Except.toOption, hst, huc, hbal, hcost, hb500]
  norm_num
